import Mathlib

/-!
Verification development for two components of the repository:

* `colossalai/fx/profiler/tensor.py` — the `MetaTensor` wrapper subclass
  (a metadata-only tensor proxy with a fake/reported device), embedded below
  in the `ColossalSpec` namespace as `MetaTensor`, `torchDispatch`
  (`__torch_dispatch__`), and `MetaTensor.toDevice` (the `to` overloads
  registered for a device-like target).

* `colossalai/shardformer/modeling/t5.py` — `T5PipelineForwards`
  (`t5_stack_forward`, `t5_model_forward`,
  `t5_for_conditional_generation_forward`), embedded as functions over an
  untyped Python-value type `TVal` returning `Except PyError _`, where
  `PyError` enumerates the concrete raise sites of the source.

Tensors are embedded at the metadata level (shape / dtype / device): the
source itself never materialises element data (that is the whole point of
`MetaTensor`), and the numeric kernels of the transformer blocks are
external collaborators of the T5 forwards, modelled as opaque function
fields of the corresponding structures.
-/

namespace ColossalSpec

/-- A device identifier. `meta` is the virtual/no-op storage device
(`torch.device('meta')`); the others stand for real devices. -/
inductive Device where
  | meta : Device
  | cpu : Device
  | cuda (n : Nat) : Device
  | named (s : String) : Device
deriving DecidableEq, Repr

/-- Element dtypes, at the level of detail the source manipulates them. -/
inductive Dtype where
  | float32 : Dtype
  | float16 : Dtype
  | int64 : Dtype
  | uint8 : Dtype
deriving DecidableEq, Repr

/-- A `torch.Tensor` at the metadata level: shape, dtype and the device of
its backing storage.  Strides / layout / requires_grad are carried by the
same mechanism in the source and add nothing to the claims. -/
structure Tensor where
  shape : List Nat
  dtype : Dtype
  device : Device
deriving DecidableEq, Repr

/-- `t.to(torch.device('meta'))` on a plain tensor: move storage to the
virtual device, all metadata unchanged. -/
def Tensor.toMeta (t : Tensor) : Tensor :=
  { t with device := Device.meta }

/-- `t.is_meta` for a plain tensor. -/
def Tensor.is_meta (t : Tensor) : Bool :=
  t.device = Device.meta

/-- The `if not x.is_meta: x = x.to(torch.device('meta'))` idiom used in
`MetaTensor.__new__` and in the `wrap` closure of `__torch_dispatch__`. -/
def migrateIf (t : Tensor) : Tensor :=
  if t.is_meta then t else t.toMeta

/-- The `MetaTensor` wrapper: `_tensor` is the real (held) tensor, and
`device` is the advertised fake device passed to
`torch.Tensor._make_wrapper_subclass` (`fake_device`). -/
structure MetaTensor where
  _tensor : Tensor
  device : Device
deriving DecidableEq, Repr

/-- The argument accepted by `MetaTensor.__new__`: either a plain tensor or
an already-wrapped `MetaTensor` (the `isinstance(elem, MetaTensor)` test). -/
inductive TensorLike where
  | plain (t : Tensor) : TensorLike
  | wrapped (m : MetaTensor) : TensorLike
deriving DecidableEq, Repr

/-- `MetaTensor.__new__(cls, elem, fake_device=None)`:
if `elem` is already a `MetaTensor`, default `fake_device` to its advertised
device and unwrap to its `_tensor`; advertise `fake_device` (or the
element's own device when none was given); hold the element, migrated to
the meta device when it is not already there. -/
def MetaTensor.new (elem : TensorLike) (fake_device : Option Device) : MetaTensor :=
  match elem with
  | .wrapped m =>
      let fd := match fake_device with
        | none => m.device
        | some d => d
      { _tensor := migrateIf m._tensor, device := fd }
  | .plain t =>
      { _tensor := migrateIf t,
        device := match fake_device with
          | none => t.device
          | some d => d }

/-- `copy.deepcopy` of a `MetaTensor` at the metadata level: a fresh value
equal to the original (no storage to duplicate on the meta device). -/
def deepcopy (m : MetaTensor) : MetaTensor := m

/-- A pytree of Python values as flowed through `__torch_dispatch__`:
tensor leaves (plain or wrapped), device objects, plain scalars, and
nested containers encoded as cons cells (flattening order of
`torch.utils._pytree` is the left-to-right leaf order). -/
inductive PyTree where
  | tensorV (t : Tensor) : PyTree
  | metaV (m : MetaTensor) : PyTree
  | devV (d : Device) : PyTree
  | intV (n : Int) : PyTree
  | nil : PyTree
  | cons (head tail : PyTree) : PyTree
deriving DecidableEq, Repr

/-- The `unwrap` closure of `__torch_dispatch__` mapped over a pytree, with
the `nonlocal fake_device` threaded left to right: every `MetaTensor` leaf
records its advertised device and is replaced by its `_tensor`; every plain
tensor leaf records its own device and is migrated to meta; other leaves
pass through. -/
def unwrapAccum (fd : Option Device) : PyTree → Option Device × PyTree
  | .metaV m => (some m.device, .tensorV m._tensor)
  | .tensorV t => (some t.device, .tensorV t.toMeta)
  | .cons a b =>
      let pa := unwrapAccum fd a
      let pb := unwrapAccum pa.1 b
      (pb.1, .cons pa.2 pb.2)
  | x => (fd, x)

/-- `tree_map f` applied at the leaves of a pytree. -/
def mapTree (f : PyTree → PyTree) : PyTree → PyTree
  | .cons a b => .cons (mapTree f a) (mapTree f b)
  | .nil => .nil
  | x => f x

/-- The `wrap` closure of `__torch_dispatch__` at a single leaf: a tensor
is migrated to meta if needed and rewrapped as `MetaTensor(x, fake_device)`;
an already-wrapped result is likewise meta-migrated (via the device overload
of `to`, which with no dtype is `MetaTensor(deepcopy(self), fake_device=meta)`)
and rewrapped; non-tensor leaves pass through unchanged. -/
def wrapLeaf (fd : Option Device) : PyTree → PyTree
  | .tensorV t => .metaV (MetaTensor.new (.plain (migrateIf t)) fd)
  | .metaV m =>
      let x := if m.device = Device.meta then m
               else MetaTensor.new (.wrapped (deepcopy m)) (some Device.meta)
      .metaV (MetaTensor.new (.wrapped x) fd)
  | x => x

/-- The keyword-argument dictionary of a dispatched call: the `device`
entry (the one `__torch_dispatch__` inspects) and the remaining values in
key order. -/
structure Kwargs where
  device : Option Device
  rest : PyTree
deriving DecidableEq, Repr

/-- `MetaTensor.__torch_dispatch__(func, types, args, kwargs=None)`.
With `kwargs=None` the membership test `'device' in kwargs` raises
`TypeError` (None is not iterable).  Otherwise: capture the `device`
keyword (when present) as `fake_device` and overwrite the entry with the
meta device; then `tree_map(unwrap, args)` and `tree_map(unwrap, kwargs)`,
each tensor visited overwriting `fake_device`; call `func` on the unwrapped
trees; rewrap the result with `tree_map(wrap, out)`. -/
def torchDispatch (func : PyTree → Kwargs → PyTree) (args : PyTree)
    (kwargs : Option Kwargs) : Except String PyTree :=
  match kwargs with
  | none => .error "TypeError: argument of type NoneType is not iterable"
  | some kw =>
      let fdkw : Option Device × Kwargs :=
        match kw.device with
        | some d => (some d, { kw with device := some Device.meta })
        | none => (none, kw)
      let pArgs := unwrapAccum fdkw.1 args
      let pRest := unwrapAccum pArgs.1 fdkw.2.rest
      let out := func pArgs.2 { fdkw.2 with rest := pRest.2 }
      .ok (mapTree (wrapLeaf pRest.1) out)

/-- The `aten._to_copy`-style primitive performed by `super().to(dtype)`:
return the first tensor argument with its dtype replaced. -/
def aten_to_copy (d : Dtype) : PyTree → Kwargs → PyTree
  | .cons (.tensorV t) _, _ => .tensorV { t with dtype := d }
  | _, _ => .intV 0

/-- `super().to(dtype, non_blocking, copy)` on a `MetaTensor`: the call is
intercepted by `__torch_dispatch__` with the proxy as only tensor argument
and comes back as a proxy with converted dtype.  The fallback branch is
unreachable (the dispatch of `aten_to_copy` always returns a proxy). -/
def superToDtype (self : MetaTensor) (d : Dtype) : MetaTensor :=
  match torchDispatch (aten_to_copy d) (.cons (.metaV self) .nil)
      (some { device := none, rest := .nil }) with
  | .ok (.metaV m) => m
  | _ => self

/-- The two `to.register` overloads for a location target (`device: str` and
`device: _device` have identical bodies): perform the dtype conversion via
the normal path when a dtype is given (identity otherwise), then
`MetaTensor(deepcopy(result), fake_device=device)`. -/
def MetaTensor.toDevice (self : MetaTensor) (device : Device)
    (dtype : Option Dtype) : MetaTensor :=
  let result := match dtype with
    | some d => superToDtype self d
    | none => self
  MetaTensor.new (.wrapped (deepcopy result)) (some device)

/-- Every `MetaTensor` leaf of the tree advertises device `d`, and no plain
tensor leaf remains. -/
def allProxiesAt (d : Device) : PyTree → Bool
  | .cons a b => allProxiesAt d a && allProxiesAt d b
  | .metaV m => m.device = d
  | .tensorV _ => false
  | _ => true

/-- Every `MetaTensor` leaf of the tree holds its `_tensor` on the meta
device, and no plain tensor leaf remains. -/
def allProxiesMeta : PyTree → Bool
  | .cons a b => allProxiesMeta a && allProxiesMeta b
  | .metaV m => m._tensor.device = Device.meta
  | .tensorV _ => false
  | _ => true

/-- The tree contains no tensor-valued leaf (neither plain nor wrapped). -/
def noTensors : PyTree → Bool
  | .cons a b => noTensors a && noTensors b
  | .metaV _ => false
  | .tensorV _ => false
  | _ => true

/-!
Embedding of `colossalai/shardformer/modeling/t5.py` (`T5PipelineForwards`).

Python is untyped, so the tensor-ish arguments flow as values of `TVal`
(`none_` is Python `None`, `vnil`/`vcons` encode tuples/lists); operations
that require a particular shape of value fail with the corresponding
Python exception, enumerated in `PyError`.  Attribute collaborators of the
host model (embedding lookup, dropout, layer norm, transformer blocks,
mask builders) are opaque function fields.  Distinguished `ValueError`
raise sites of the source get their own `PyError` constructors so that
theorems can identify which check fired.
-/

/-- An untyped Python value as threaded through the T5 forwards. -/
inductive TVal where
  | none_ : TVal
  | bool (b : Bool) : TVal
  | tensor (t : Tensor) : TVal
  | vnil : TVal
  | vcons (head tail : TVal) : TVal
deriving DecidableEq, Repr

/-- Python exceptions raised by the embedded code.  The first block names
the individual `ValueError` raise sites of `t5.py`; the generic
constructors carry a message. -/
inductive PyError where
  | bothInputs (pfx : String) : PyError
  | neitherInputs (pfx : String) : PyError
  | noEmbedTokens : PyError
  | misalignedStack : PyError
  | missingHiddenStates : PyError
  | missingEncoderOutputs : PyError
  | missingDecoderHidden : PyError
  | unpackMismatch (expected : Nat) : PyError
  | indexError (msg : String) : PyError
  | typeError (msg : String) : PyError
  | attributeError (msg : String) : PyError
  | keyError (msg : String) : PyError
  | unboundLocal (name : String) : PyError
deriving DecidableEq, Repr

/-- Truthiness of an `Optional[bool]` Python value (`None` is falsy). -/
def truthyB : Option Bool → Bool
  | some b => b
  | none => false

/-- Truthiness of an optional tuple/list value (`None` and the empty tuple
are falsy). -/
def truthyPast (p : Option (List TVal)) : Bool :=
  match p with
  | none => false
  | some l => !l.isEmpty

/-- Python `xs[i]` on a list, with negative-index wraparound. -/
def pyGetL {α : Type} (xs : List α) (i : Int) : Except PyError α :=
  let j := if i < 0 then i + xs.length else i
  if j < 0 then .error (.indexError "list index out of range")
  else
    match xs[j.toNat]? with
    | some x => .ok x
    | none => .error (.indexError "list index out of range")

/-- Attribute/method access that needs an actual tensor (`.device`,
`.size()`, `.view`, …); on any other value Python raises
`AttributeError`. -/
def expectTensor (v : TVal) : Except PyError Tensor :=
  match v with
  | .tensor t => .ok t
  | _ => .error (.attributeError "object has no tensor attribute")

/-- Decode a `vcons` chain as a Lean list, when the value is a tuple. -/
def TVal.asTuple : TVal → Option (List TVal)
  | .vnil => some []
  | .vcons h t =>
      match asTuple t with
      | some xs => some (h :: xs)
      | none => none
  | _ => none

/-- Encode a Lean list as a Python tuple value. -/
def TVal.ofList : List TVal → TVal
  | [] => .vnil
  | x :: xs => .vcons x (ofList xs)

/-- Python `v[i]`: tuple indexing, tensor integer indexing (dropping the
leading dimension), `TypeError` otherwise. -/
def pyIndexV (v : TVal) (i : Int) : Except PyError TVal :=
  match v.asTuple with
  | some xs => pyGetL xs i
  | none =>
      match v with
      | .tensor t =>
          match t.shape with
          | [] => .error (.indexError "invalid index of a 0-dim tensor")
          | n :: rest =>
              let j := if i < 0 then i + n else i
              if j < 0 || (n : Int) ≤ j then .error (.indexError "index out of range")
              else .ok (.tensor { t with shape := rest })
      | _ => .error (.typeError "object is not subscriptable")

/-- Python `len(v)`. -/
def pyLenV (v : TVal) : Except PyError Int :=
  match v.asTuple with
  | some xs => .ok xs.length
  | none =>
      match v with
      | .tensor t =>
          match t.shape with
          | [] => .error (.typeError "len of a 0-d tensor")
          | n :: _ => .ok n
      | _ => .error (.typeError "object has no len")

/-- The pipeline stage manager collaborator (`PipelineStageManager`):
current stage, number of stages, and the `is_last_stage()` answer. -/
structure StageManager where
  stage : Int
  num_stages : Int
  is_last_stage : Bool
deriving DecidableEq, Repr

/-- A transformer block collaborator (`self.block[i]`), called with
(hidden_states, attention_mask, position_bias, encoder_hidden_states,
encoder_attention_mask, encoder_decoder_position_bias, layer_head_mask,
cross_attn_layer_head_mask, past_key_value, use_cache, output_attentions)
and returning the layer-output tuple. -/
abbrev BlockFn := TVal → TVal → TVal → TVal → TVal → TVal → TVal → TVal →
  TVal → Option Bool → Option Bool → List TVal

/-- The `T5Stack` host module: configuration flags and the collaborator
functions `t5_stack_forward` invokes on `self`. -/
structure T5Stack where
  is_decoder : Bool
  gradient_checkpointing : Bool
  training : Bool
  embed_tokens : Option (TVal → TVal)
  dropout : TVal → TVal
  final_layer_norm : TVal → TVal
  block : List BlockFn
  config_num_layers : Int
  get_extended_attention_mask : TVal → List Nat → TVal
  invert_attention_mask : TVal → TVal
  get_head_mask : TVal → Int → List TVal

/-- The keyword arguments of `t5_stack_forward`, with the source's default
values. -/
structure StackArgs where
  input_ids : TVal := .none_
  attention_mask : TVal := .none_
  encoder_hidden_states : TVal := .none_
  encoder_attention_mask : TVal := .none_
  inputs_embeds : TVal := .none_
  head_mask : TVal := .none_
  cross_attn_head_mask : TVal := .none_
  past_key_values : Option (List TVal) := none
  use_cache : Option Bool := some false
  output_attentions : Option Bool := some false
  output_hidden_states : Option Bool := some false
  return_dict : Option Bool := none
  stage_manager : Option StageManager := none
  hidden_states : TVal := .none_
  position_bias : TVal := .none_
  encoder_decoder_position_bias : TVal := .none_
  stage_index : List Int := []
  decoder_starting_stage : Int := 0

/-- The value `t5_stack_forward` returns: the plain tuple
(`return_dict` falsy at the last stage), a
`BaseModelOutputWithPastAndCrossAttentions`, or the intermediate-stage
dict `{'hidden_states', 'position_bias', 'encoder_decoder_position_bias'}`. -/
inductive StackOutput where
  | tupleOut (xs : List TVal) : StackOutput
  | baseOut (last_hidden_state past_key_values hidden_states attentions
      cross_attentions : TVal) : StackOutput
  | dictOut (hidden_states position_bias encoder_decoder_position_bias :
      TVal) : StackOutput
deriving DecidableEq, Repr

/-- Lines 54–65 of `t5.py`: non-empty `past_key_values`, truthy
`output_attentions`, `output_hidden_states` and `use_cache` are each forced
off with a one-time advisory (`logger.warning_once`, a pure log). -/
def suppressPipelineFlags (a : StackArgs) : StackArgs :=
  { a with
    past_key_values :=
      if truthyPast a.past_key_values then none else a.past_key_values,
    output_attentions :=
      if truthyB a.output_attentions then some false else a.output_attentions,
    output_hidden_states :=
      if truthyB a.output_hidden_states then some false
      else a.output_hidden_states,
    use_cache := if truthyB a.use_cache then some false else a.use_cache }

/-- `"decoder_" if in_decoder else ""`. -/
def errPfx (in_decoder : Bool) : String :=
  if in_decoder then "decoder_" else ""

/-- Lines 87–100: the first-stage input validation — both `input_ids` and
`inputs_embeds` present, or neither, is a `ValueError`; with `input_ids`
the shape is taken from it and the ids are re-viewed to 2-D; with
`inputs_embeds` the shape drops the feature dimension.  Returns
(input_shape, input_ids, inputs_embeds). -/
def firstStageInputs (in_decoder : Bool) (input_ids inputs_embeds : TVal) :
    Except PyError (List Nat × TVal × TVal) :=
  if input_ids != TVal.none_ && inputs_embeds != TVal.none_ then
    .error (.bothInputs (errPfx in_decoder))
  else if input_ids != TVal.none_ then
    match expectTensor input_ids with
    | .error e => .error e
    | .ok t =>
        match t.shape.getLast? with
        | none => .error (.indexError "tuple index out of range")
        | some last =>
            .ok (t.shape,
                 .tensor { t with shape := [t.shape.prod / last, last] },
                 inputs_embeds)
  else if inputs_embeds != TVal.none_ then
    match expectTensor inputs_embeds with
    | .error e => .error e
    | .ok t => .ok (t.shape.dropLast, input_ids, inputs_embeds)
  else
    .error (.neitherInputs (errPfx in_decoder))

/-- Lines 101–104: look up embeddings when only ids were given
(`ValueError` when the stack has no `embed_tokens`). -/
def embedStep (self : T5Stack) (input_ids inputs_embeds : TVal) :
    Except PyError TVal :=
  if inputs_embeds == TVal.none_ then
    match self.embed_tokens with
    | none => .error .noEmbedTokens
    | some f => .ok (f input_ids)
  else .ok inputs_embeds

/-- Line 105: `batch_size, seq_length = input_shape` (a 2-tuple unpack). -/
def unpack2 (s : List Nat) : Except PyError (Nat × Nat) :=
  match s with
  | [b, sq] => .ok (b, sq)
  | _ => .error (.unpackMismatch 2)

/-- The loop-carried state of the block loop (lines 155–215). -/
structure LoopSt where
  hidden : TVal
  position_bias : TVal
  encoder_decoder_position_bias : TVal
  present : Option (List TVal)
deriving Repr

/-- Line 117: `mask_seq_length = past_key_values[0][0].shape[2] + seq_length
if past_key_values is not None else seq_length`. -/
def maskSeqLen (past : Option (List TVal)) (seq_length : Nat) :
    Except PyError Nat :=
  match past with
  | some l => do
      let kv0 ← pyGetL l 0
      let kv00 ← pyIndexV kv0 0
      let t ← expectTensor kv00
      let s2 ← pyGetL t.shape 2
      pure (s2 + seq_length)
  | none => pure seq_length

/-- Lines 121–123: default `encoder_attention_mask` to an all-ones `long`
mask when decoding with encoder states present but no mask given. -/
def encAttnMask (in_decoder : Bool) (encoder_attention_mask
    encoder_hidden_states : TVal) (batch_size : Nat) (device : Device) :
    Except PyError TVal :=
  if in_decoder && encoder_attention_mask == TVal.none_ &&
      encoder_hidden_states != TVal.none_ then
    match expectTensor encoder_hidden_states with
    | .error e => .error e
    | .ok ehs =>
        match pyGetL ehs.shape 1 with
        | .error e => .error e
        | .ok encoder_seq_length =>
            .ok (.tensor ⟨[batch_size, encoder_seq_length], Dtype.int64,
              device⟩)
  else .ok encoder_attention_mask

/-- Lines 126–127: `past_key_values = [None] * len(self.block)` when no past
was given. -/
def initPast (past : Option (List TVal)) (n : Nat) : List TVal :=
  match past with
  | none => List.replicate n TVal.none_
  | some l => l

/-- Line 136: `encoder_batch_size, encoder_sequence_length, _ =
encoder_hidden_states.size()` (a 3-tuple unpack). -/
def unpack3 (s : List Nat) : Except PyError (Nat × Nat) :=
  match s with
  | [b, sq, _] => .ok (b, sq)
  | _ => .error (.unpackMismatch 3)

/-- Lines 138–139: default the cross-attention mask to all-ones on
`inputs_embeds.device` when none was given. -/
def defaultEncMask (encoder_attention_mask inputs_embeds : TVal)
    (b s : Nat) : Except PyError TVal :=
  if encoder_attention_mask == TVal.none_ then
    match expectTensor inputs_embeds with
    | .error e => .error e
    | .ok emb => .ok (.tensor ⟨[b, s], Dtype.float32, emb.device⟩)
  else .ok encoder_attention_mask

/-- Lines 135–142: build `encoder_extended_attention_mask` via
`invert_attention_mask`, or `None` outside the decoder. -/
def encExtMask (self : T5Stack) (encoder_hidden_states
    encoder_attention_mask inputs_embeds : TVal) : Except PyError TVal :=
  if self.is_decoder && encoder_hidden_states != TVal.none_ then do
    let ehs ← expectTensor encoder_hidden_states
    let dims ← unpack3 ehs.shape
    let eam2 ← defaultEncMask encoder_attention_mask inputs_embeds
      dims.1 dims.2
    pure (self.invert_attention_mask eam2)
  else pure TVal.none_

/-- Line 204: `hidden_states, present_key_value_state = layer_outputs[:2]`. -/
def unpackHP (layer_outputs : List TVal) : Except PyError (TVal × TVal) :=
  match layer_outputs with
  | h :: p :: _ => .ok (h, p)
  | _ => .error (.unpackMismatch 2)

/-- Lines 211–212: refresh `encoder_decoder_position_bias` from the layer
outputs when cross-attending. -/
def edpbStep (in_decoder : Bool) (encoder_hidden_states : TVal)
    (output_attentions : Option Bool) (layer_outputs : List TVal)
    (old : TVal) : Except PyError TVal :=
  if in_decoder && encoder_hidden_states != TVal.none_ then
    pyGetL layer_outputs (if truthyB output_attentions then 4 else 3)
  else .ok old

/-- Lines 214–215: append the present key-value state when caching
(`None + tuple` is a `TypeError`). -/
def presentStep (use_cache : Option Bool) (present : Option (List TVal))
    (pkv : TVal) : Except PyError (Option (List TVal)) :=
  if truthyB use_cache then
    match present with
    | some l => .ok (some (l ++ [pkv]))
    | none =>
        .error (.typeError "unsupported operand types for + NoneType and tuple")
  else .ok present

/-- Lines 155–215: run the blocks `start_idx ≤ i < end_idx`.  Each
iteration indexes the per-layer collaborator lists, requires the running
hidden state to be a tensor (`torch.cuda.set_device(hidden_states.device)`),
calls the block (under gradient checkpointing with the positional
signature whose `past_key_value` slot is always `None`), re-slices the
output tuple when `use_cache` is `False`/`None`, and threads position
biases and the present-key-value tuple. -/
def runBlocks (self : T5Stack) (past_key_values : List TVal)
    (head_mask cross_attn_head_mask : List TVal)
    (extended_attention_mask encoder_hidden_states
      encoder_extended_attention_mask : TVal)
    (in_decoder : Bool) (use_cache output_attentions : Option Bool) :
    Nat → Int → LoopSt → Except PyError LoopSt
  | 0, _, st => pure st
  | Nat.succ fuel, i, st => do
      let past_key_value ← pyGetL past_key_values i
      let layer_module ← pyGetL self.block i
      let layer_head_mask ← pyGetL head_mask i
      let cross_attn_layer_head_mask ← pyGetL cross_attn_head_mask i
      let _ ← expectTensor st.hidden
      let raw_outputs :=
        if self.gradient_checkpointing && self.training then
          layer_module st.hidden extended_attention_mask st.position_bias
            encoder_hidden_states encoder_extended_attention_mask
            st.encoder_decoder_position_bias layer_head_mask
            cross_attn_layer_head_mask TVal.none_ use_cache output_attentions
        else
          layer_module st.hidden extended_attention_mask st.position_bias
            encoder_hidden_states encoder_extended_attention_mask
            st.encoder_decoder_position_bias layer_head_mask
            cross_attn_layer_head_mask past_key_value use_cache
            output_attentions
      let layer_outputs :=
        if use_cache == some false || use_cache == none then
          raw_outputs.take 1 ++ [TVal.none_] ++ raw_outputs.drop 1
        else raw_outputs
      let hp ← unpackHP layer_outputs
      let position_bias ← pyGetL layer_outputs 2
      let edpb ← edpbStep in_decoder encoder_hidden_states
        output_attentions layer_outputs st.encoder_decoder_position_bias
      let present ← presentStep use_cache st.present hp.2
      runBlocks self past_key_values head_mask cross_attn_head_mask
        extended_attention_mask encoder_hidden_states
        encoder_extended_attention_mask in_decoder use_cache
        output_attentions fuel (i + 1) ⟨hp.1, position_bias, edpb, present⟩

/-- `None` or a tuple, as a Python value. -/
def optTV : Option (List TVal) → TVal
  | none => TVal.none_
  | some l => TVal.ofList l

/-- Lines 116–242 of `t5_stack_forward`: everything after the per-branch
input processing — mask construction, past initialisation, head masks,
the block loop, and the stage-dependent output assembly. -/
def t5_stack_rest (self : T5Stack) (a : StackArgs) (use_cache : Option Bool)
    (in_decoder at_last_stage : Bool) (input_shape : List Nat)
    (batch_size seq_length : Nat) (device : Device)
    (inputs_embeds hidden0 : TVal) : Except PyError StackOutput := do
  let mask_seq_length ← maskSeqLen a.past_key_values seq_length
  let attention_mask :=
    if a.attention_mask == TVal.none_ then
      TVal.tensor ⟨[batch_size, mask_seq_length], Dtype.float32, device⟩
    else a.attention_mask
  let encoder_attention_mask ← encAttnMask in_decoder
    a.encoder_attention_mask a.encoder_hidden_states batch_size device
  let past_key_values : List TVal := initPast a.past_key_values
    self.block.length
  let extended_attention_mask :=
    self.get_extended_attention_mask attention_mask input_shape
  let encoder_extended_attention_mask ← encExtMask self
    a.encoder_hidden_states encoder_attention_mask inputs_embeds
  let head_mask := self.get_head_mask a.head_mask self.config_num_layers
  let cross_attn_head_mask :=
    self.get_head_mask a.cross_attn_head_mask self.config_num_layers
  let present0 : Option (List TVal) :=
    if truthyB use_cache then some [] else none
  let all_hidden_states : Option (List TVal) :=
    if truthyB a.output_hidden_states then some [] else none
  let all_attentions : Option (List TVal) :=
    if truthyB a.output_attentions then some [] else none
  let all_cross_attentions : Option (List TVal) :=
    if truthyB a.output_attentions && self.is_decoder then some [] else none
  let start_idx ← pyGetL a.stage_index 0
  let end_idx ← pyGetL a.stage_index 1
  let st ← runBlocks self past_key_values head_mask cross_attn_head_mask
    extended_attention_mask a.encoder_hidden_states
    encoder_extended_attention_mask in_decoder use_cache a.output_attentions
    (end_idx - start_idx).toNat start_idx
    ⟨hidden0, a.position_bias, a.encoder_decoder_position_bias, present0⟩
  if at_last_stage then
    let h1 := self.final_layer_norm st.hidden
    let h2 := self.dropout h1
    if !truthyB a.return_dict then
      pure (StackOutput.tupleOut
        (List.filter (fun v => v != TVal.none_)
          [h2, optTV st.present, optTV all_hidden_states,
           optTV all_attentions, optTV all_cross_attentions]))
    else
      pure (StackOutput.baseOut h2 (optTV st.present)
        (optTV all_hidden_states) (optTV all_attentions)
        (optTV all_cross_attentions))
  else
    pure (StackOutput.dictOut st.hidden st.position_bias
      st.encoder_decoder_position_bias)

/-- Lines 69–242 of `t5_stack_forward`: everything after the pipeline flag
suppression and the dead `use_cache is True` branch — gradient-checkpointing
downgrade of `use_cache`, stage/decoder alignment check, per-branch input
processing, then `t5_stack_rest`. -/
def t5_stack_core (self : T5Stack) (a : StackArgs) :
    Except PyError StackOutput :=
  let use_cache :=
    if self.gradient_checkpointing && self.training && truthyB a.use_cache
    then some false else a.use_cache
  match a.stage_manager with
  | none => .error (.attributeError "NoneType object has no attribute stage")
  | some sm =>
      let stage := sm.stage
      let in_decoder := self.is_decoder
      if in_decoder != decide (stage ≥ a.decoder_starting_stage) then
        .error .misalignedStack
      else
        let at_first_stage :=
          stage == 0 || stage == a.decoder_starting_stage
        let at_last_stage :=
          stage == a.decoder_starting_stage - 1 ||
          stage == sm.num_stages - 1
        if at_first_stage then
          match firstStageInputs in_decoder a.input_ids a.inputs_embeds with
          | .error e => .error e
          | .ok v =>
              match embedStep self v.2.1 v.2.2 with
              | .error e => .error e
              | .ok inputs_embeds1 =>
                  match unpack2 v.1 with
                  | .error e => .error e
                  | .ok bs =>
                      match expectTensor inputs_embeds1 with
                      | .error e => .error e
                      | .ok et =>
                          t5_stack_rest self a use_cache in_decoder
                            at_last_stage v.1 bs.1 bs.2 et.device
                            inputs_embeds1 (self.dropout inputs_embeds1)
        else
          if a.hidden_states == TVal.none_ then
            .error .missingHiddenStates
          else
            match expectTensor a.hidden_states with
            | .error e => .error e
            | .ok ht =>
                let input_shape := ht.shape.dropLast
                match pyGetL input_shape 0 with
                | .error e => .error e
                | .ok batch_size =>
                    match pyGetL input_shape 1 with
                    | .error e => .error e
                    | .ok seq_length =>
                        t5_stack_rest self a use_cache in_decoder
                          at_last_stage input_shape batch_size seq_length
                          ht.device a.inputs_embeds a.hidden_states

/-- `T5PipelineForwards.t5_stack_forward`: suppress the unsupported
pipeline flags (lines 54–65), then the dead branch of lines 66–68 — were
`use_cache` still `True` there, evaluating `not in_decoder` would raise
`UnboundLocalError` since `in_decoder` is only assigned at line 76 — and
then the main body. -/
def t5_stack_forward (self : T5Stack) (a0 : StackArgs) :
    Except PyError StackOutput :=
  let a := suppressPipelineFlags a0
  if a.use_cache == some true then .error (.unboundLocal "in_decoder")
  else t5_stack_core self a

/-- The `encoder_outputs` argument of the model-level forwards: either a
raw value (tuple etc.) or a `BaseModelOutput`. -/
inductive EncOut where
  | raw (v : TVal) : EncOut
  | base (last_hidden_state hidden_states attentions : TVal) : EncOut
deriving DecidableEq, Repr

/-- `encoder_outputs[0]`: tuple/raw indexing, or `ModelOutput` integer
indexing (`to_tuple()[0]`, the first non-`None` field). -/
def encIndex0 (eo : EncOut) : Except PyError TVal :=
  match eo with
  | .raw v => pyIndexV v 0
  | .base l h att =>
      match (if l != TVal.none_ then some l
             else if h != TVal.none_ then some h
             else if att != TVal.none_ then some att else none) with
      | some x => .ok x
      | none => .error (.indexError "tuple index out of range")

/-- Lines 337–342: when `return_dict` and `encoder_outputs` is not already
a `BaseModelOutput`, rebuild it as one from its first three entries. -/
def rebuildEnc (eo : EncOut) : Except PyError EncOut :=
  match eo with
  | .base l h att => .ok (.base l h att)
  | .raw v =>
      match pyLenV v with
      | .error e => .error e
      | .ok len =>
          match pyIndexV v 0 with
          | .error e => .error e
          | .ok l =>
              match (if len > 1 then pyIndexV v 1 else .ok TVal.none_) with
              | .error e => .error e
              | .ok h =>
                  match (if len > 2 then pyIndexV v 2 else .ok TVal.none_) with
                  | .error e => .error e
                  | .ok att => .ok (.base l h att)

/-- What the model-level forwards return. -/
inductive ModelFwdOut where
  | encDict (encoder_outputs : StackOutput) : ModelFwdOut
  | stackPass (o : StackOutput) : ModelFwdOut
  | withEnc (decoder_outputs : StackOutput) (encoder_outputs : EncOut) :
      ModelFwdOut
  | tupleOut (xs : List TVal) : ModelFwdOut
  | seq2seq (last_hidden_state past_key_values decoder_hidden_states
      decoder_attentions cross_attentions encoder_last_hidden_state
      encoder_hidden_states encoder_attentions : TVal) : ModelFwdOut
  | seq2seqLM (loss logits past_key_values decoder_hidden_states
      decoder_attentions cross_attentions encoder_last_hidden_state
      encoder_hidden_states encoder_attentions : TVal) : ModelFwdOut
deriving DecidableEq, Repr

/-- `decoder_outputs['encoder_outputs'] = encoder_outputs` (lines 370–372):
item assignment works on the dict and on a `ModelOutput`, and raises
`TypeError` on a tuple. -/
def setEncKey (dec : StackOutput) (enc : EncOut) :
    Except PyError ModelFwdOut :=
  match dec with
  | .tupleOut _ =>
      .error (.typeError "tuple object does not support item assignment")
  | d => .ok (.withEnc d enc)

/-- `decoder_outputs + encoder_outputs` (line 375): tuple concatenation;
anything else raises `TypeError`. -/
def tupleAddDecEnc (dec : StackOutput) (enc : EncOut) :
    Except PyError ModelFwdOut :=
  match dec with
  | .tupleOut xs =>
      match enc with
      | .raw v =>
          match v.asTuple with
          | some ys => .ok (.tupleOut (xs ++ ys))
          | none => .error (.typeError "can only concatenate tuple")
      | .base _ _ _ => .error (.typeError "can only concatenate tuple")
  | _ => .error (.typeError "unsupported operand types for +")

/-- Lines 377–386: assemble the `Seq2SeqModelOutput` from attribute
accesses on both outputs. -/
def mkSeq2SeqOutput (dec : StackOutput) (enc : EncOut) :
    Except PyError ModelFwdOut :=
  match dec with
  | .baseOut l p h att c =>
      match enc with
      | .base el eh ea => .ok (.seq2seq l p h att c el eh ea)
      | .raw _ =>
          .error (.attributeError "tuple object has no attribute last_hidden_state")
  | _ => .error (.attributeError "object has no attribute last_hidden_state")

/-- The `T5Model` host for `t5_model_forward`. -/
structure T5ModelM where
  encoder : T5Stack
  decoder : T5Stack
  config_use_cache : Bool
  config_use_return_dict : Bool
  config_num_layers : Int
  config_num_decoder_layers : Int

/-- The keyword arguments of the model-level forwards, with the source's
default values. -/
structure ModelArgs where
  input_ids : TVal := .none_
  attention_mask : TVal := .none_
  decoder_input_ids : TVal := .none_
  decoder_attention_mask : TVal := .none_
  head_mask : TVal := .none_
  decoder_head_mask : TVal := .none_
  cross_attn_head_mask : TVal := .none_
  encoder_outputs : Option EncOut := none
  past_key_values : Option (List TVal) := none
  inputs_embeds : TVal := .none_
  decoder_inputs_embeds : TVal := .none_
  use_cache : Option Bool := none
  output_attentions : Option Bool := none
  output_hidden_states : Option Bool := none
  return_dict : Option Bool := none
  stage_manager : StageManager
  hidden_states : TVal := .none_
  position_bias : TVal := .none_
  encoder_decoder_position_bias : TVal := .none_
  stage_index : List Int := []
  decoder_starting_stage : Int := 0

/-- The encoder-side `t5_stack_forward` call of the model-level forwards
(lines 309–323 / 454–468): only these keywords are passed, the rest keep
the stack defaults. -/
def encoderCallArgs (a : ModelArgs)
    (output_attentions output_hidden_states return_dict : Option Bool) :
    StackArgs :=
  { input_ids := a.input_ids
    attention_mask := a.attention_mask
    inputs_embeds := a.inputs_embeds
    head_mask := a.head_mask
    output_attentions := output_attentions
    output_hidden_states := output_hidden_states
    return_dict := return_dict
    stage_manager := some a.stage_manager
    hidden_states := a.hidden_states
    position_bias := a.position_bias
    encoder_decoder_position_bias := a.encoder_decoder_position_bias
    stage_index := a.stage_index
    decoder_starting_stage := a.decoder_starting_stage }

/-- The decoder-side `t5_stack_forward` call of the model-level forwards
(lines 349–367 / 494–512).  Note the source passes no `stage_manager`
keyword here, so the stack sees its default `None`. -/
def decoderCallArgs (a : ModelArgs) (past : Option (List TVal))
    (ehs dhm : TVal) (uc oa ohs rd : Option Bool) : StackArgs :=
  { input_ids := a.decoder_input_ids
    attention_mask := a.decoder_attention_mask
    encoder_hidden_states := ehs
    encoder_attention_mask := a.attention_mask
    inputs_embeds := a.decoder_inputs_embeds
    head_mask := dhm
    cross_attn_head_mask := a.cross_attn_head_mask
    past_key_values := past
    use_cache := uc
    output_attentions := oa
    output_hidden_states := ohs
    return_dict := rd
    stage_manager := none
    hidden_states := a.hidden_states
    position_bias := a.position_bias
    encoder_decoder_position_bias := a.encoder_decoder_position_bias
    stage_index := a.stage_index
    decoder_starting_stage := a.decoder_starting_stage }

/-- `T5PipelineForwards.t5_model_forward`. -/
def t5_model_forward (self : T5ModelM) (a : ModelArgs) :
    Except PyError ModelFwdOut :=
  let use_cache0 := match a.use_cache with
    | some b => some b
    | none => some self.config_use_cache
  let return_dict := match a.return_dict with
    | some b => some b
    | none => some self.config_use_return_dict
  let past_key_values :=
    if truthyPast a.past_key_values then none else a.past_key_values
  let output_attentions :=
    if truthyB a.output_attentions then some false else a.output_attentions
  let output_hidden_states :=
    if truthyB a.output_hidden_states then some false
    else a.output_hidden_states
  let use_cache := if truthyB use_cache0 then some false else use_cache0
  let decoder_head_mask :=
    if a.head_mask != TVal.none_ && a.decoder_head_mask == TVal.none_ &&
        self.config_num_layers == self.config_num_decoder_layers
    then a.head_mask else a.decoder_head_mask
  let in_decoder := decide (a.stage_manager.stage ≥ a.decoder_starting_stage)
  if !in_decoder then
    match t5_stack_forward self.encoder
        (encoderCallArgs a output_attentions output_hidden_states
          return_dict) with
    | .error e => .error e
    | .ok encoder_outputs =>
        if a.stage_manager.stage == a.decoder_starting_stage - 1 then
          .ok (.encDict encoder_outputs)
        else .ok (.stackPass encoder_outputs)
  else
    let at_last_decoder_stage := a.stage_manager.is_last_stage
    let at_first_decoder_stage :=
      a.stage_manager.stage == a.decoder_starting_stage
    match a.encoder_outputs with
    | none => .error .missingEncoderOutputs
    | some eo =>
        match encIndex0 eo with
        | .error e => .error e
        | .ok encoder_hidden_states =>
            match (if truthyB return_dict then rebuildEnc eo else .ok eo) with
            | .error e => .error e
            | .ok eo2 =>
                if !at_first_decoder_stage && a.hidden_states == TVal.none_
                then .error .missingDecoderHidden
                else
                  match t5_stack_forward self.decoder
                      (decoderCallArgs a past_key_values
                        encoder_hidden_states decoder_head_mask use_cache
                        output_attentions output_hidden_states return_dict)
                      with
                  | .error e => .error e
                  | .ok decoder_outputs =>
                      if !at_last_decoder_stage then
                        setEncKey decoder_outputs eo2
                      else if !truthyB return_dict then
                        tupleAddDecEnc decoder_outputs eo2
                      else mkSeq2SeqOutput decoder_outputs eo2

/-- The `T5ForConditionalGeneration` host: the two stacks, the relevant
configuration, and the language-model head collaborators (the rescale by
`model_dim ** -0.5`, the `lm_head` projection and the cross-entropy loss
with `ignore_index=-100` are opaque numeric kernels). -/
structure T5ForCondGen where
  encoder : T5Stack
  decoder : T5Stack
  config_use_cache : Bool
  config_use_return_dict : Bool
  config_tie_word_embeddings : Bool
  config_num_layers : Int
  config_num_decoder_layers : Int
  rescale : TVal → TVal
  lm_head : TVal → TVal
  compute_loss : TVal → TVal → TVal

/-- `decoder_outputs[0]` (line 519). -/
def stackIndex0 (dec : StackOutput) : Except PyError TVal :=
  match dec with
  | .tupleOut xs => pyGetL xs 0
  | .baseOut l p h att c =>
      match ([l, p, h, att, c].filter (fun v => v != TVal.none_)).head? with
      | some v => .ok v
      | none => .error (.indexError "tuple index out of range")
  | .dictOut _ _ _ => .error (.keyError "0")

/-- `decoder_outputs[1:]` (line 536): a `ModelOutput` slices through
`to_tuple()`; a dict raises `TypeError` on a slice key. -/
def stackSliceFrom1 (dec : StackOutput) : Except PyError (List TVal) :=
  match dec with
  | .tupleOut xs => .ok (xs.drop 1)
  | .baseOut l p h att c =>
      .ok (([l, p, h, att, c].filter (fun v => v != TVal.none_)).drop 1)
  | .dictOut _ _ _ => .error (.typeError "unhashable type slice")

/-- `... + encoder_outputs` (line 536): only a raw tuple concatenates. -/
def encAsTupleList (enc : EncOut) : Except PyError (List TVal) :=
  match enc with
  | .raw v =>
      match v.asTuple with
      | some xs => .ok xs
      | none => .error (.typeError "can only concatenate tuple")
  | .base _ _ _ => .error (.typeError "can only concatenate tuple")

/-- Lines 539–549: assemble the `Seq2SeqLMOutput`. -/
def mkSeq2SeqLMOutput (loss : Option TVal) (logits : TVal)
    (dec : StackOutput) (enc : EncOut) : Except PyError ModelFwdOut :=
  match dec with
  | .baseOut _ p h att c =>
      match enc with
      | .base el eh ea =>
          .ok (.seq2seqLM (match loss with | some l => l | none => TVal.none_)
            logits p h att c el eh ea)
      | .raw _ =>
          .error (.attributeError "tuple object has no attribute last_hidden_state")
  | _ => .error (.attributeError "object has no attribute past_key_values")

/-- `T5PipelineForwards.t5_for_conditional_generation_forward`. -/
def t5_for_conditional_generation_forward (self : T5ForCondGen)
    (a : ModelArgs) (labels : TVal) : Except PyError ModelFwdOut :=
  let use_cache0 := match a.use_cache with
    | some b => some b
    | none => some self.config_use_cache
  let return_dict := match a.return_dict with
    | some b => some b
    | none => some self.config_use_return_dict
  let past_key_values :=
    if truthyPast a.past_key_values then none else a.past_key_values
  let output_attentions :=
    if truthyB a.output_attentions then some false else a.output_attentions
  let output_hidden_states :=
    if truthyB a.output_hidden_states then some false
    else a.output_hidden_states
  let use_cache := if truthyB use_cache0 then some false else use_cache0
  let decoder_head_mask :=
    if a.head_mask != TVal.none_ && a.decoder_head_mask == TVal.none_ &&
        self.config_num_layers == self.config_num_decoder_layers
    then a.head_mask else a.decoder_head_mask
  let encoder : T5Stack := self.encoder
  let in_decoder := decide (a.stage_manager.stage ≥ a.decoder_starting_stage)
  if !in_decoder then
    match t5_stack_forward encoder
        (encoderCallArgs a output_attentions output_hidden_states
          return_dict) with
    | .error e => .error e
    | .ok encoder_outputs =>
        if a.stage_manager.stage == a.decoder_starting_stage - 1 then
          .ok (.encDict encoder_outputs)
        else .ok (.stackPass encoder_outputs)
  else
    let at_last_decoder_stage := a.stage_manager.is_last_stage
    let at_first_decoder_stage :=
      a.stage_manager.stage == a.decoder_starting_stage
    match a.encoder_outputs with
    | none => .error .missingEncoderOutputs
    | some eo =>
        match encIndex0 eo with
        | .error e => .error e
        | .ok encoder_hidden_states =>
            match (if truthyB return_dict then rebuildEnc eo else .ok eo) with
            | .error e => .error e
            | .ok eo2 =>
                if !at_first_decoder_stage && a.hidden_states == TVal.none_
                then .error .missingDecoderHidden
                else
                  match t5_stack_forward self.decoder
                      (decoderCallArgs a past_key_values
                        encoder_hidden_states decoder_head_mask use_cache
                        output_attentions output_hidden_states return_dict)
                      with
                  | .error e => .error e
                  | .ok decoder_outputs =>
                      if !at_last_decoder_stage then
                        setEncKey decoder_outputs eo2
                      else
                        match stackIndex0 decoder_outputs with
                        | .error e => .error e
                        | .ok sequence_output0 =>
                            let sequence_output :=
                              if self.config_tie_word_embeddings then
                                self.rescale sequence_output0
                              else sequence_output0
                            let lm_logits := self.lm_head sequence_output
                            match (if labels != TVal.none_ then
                                match expectTensor lm_logits with
                                | .error e => .error e
                                | .ok _ =>
                                    match expectTensor labels with
                                    | .error e => .error e
                                    | .ok _ =>
                                        .ok (some
                                          (self.compute_loss lm_logits labels))
                              else .ok none :
                                Except PyError (Option TVal)) with
                            | .error e => .error e
                            | .ok loss =>
                                if !truthyB return_dict then
                                  match stackSliceFrom1 decoder_outputs with
                                  | .error e => .error e
                                  | .ok decTail =>
                                      match encAsTupleList eo2 with
                                      | .error e => .error e
                                      | .ok encL =>
                                          match loss with
                                          | some lv =>
                                              .ok (.tupleOut
                                                (lv :: lm_logits ::
                                                  (decTail ++ encL)))
                                          | none =>
                                              .ok (.tupleOut
                                                (lm_logits ::
                                                  (decTail ++ encL)))
                                else
                                  mkSeq2SeqLMOutput loss lm_logits
                                    decoder_outputs eo2

/-- `r` is not an `UnboundLocalError` result (when it is an error at all,
the error predicate `P` holds of it). -/
def okOrP {α : Type} (P : PyError → Bool) : Except PyError α → Bool
  | .ok _ => true
  | .error e => P e

/-- Errors that are neither the dead-branch `UnboundLocalError` nor one of
the two first-stage exclusivity `ValueError`s. -/
def benign2 : PyError → Bool
  | .unboundLocal _ => false
  | .bothInputs _ => false
  | .neitherInputs _ => false
  | _ => true

/-- Any error except the dead-branch `UnboundLocalError`. -/
def noULb : PyError → Bool
  | .unboundLocal _ => false
  | _ => true

/-- The result is one of the two first-stage exclusivity errors. -/
def isExclInputErr : PyError → Bool
  | .bothInputs _ => true
  | .neitherInputs _ => true
  | _ => false

/-- A concrete one-block encoder stack with identity collaborators, used to
exercise the stage-boundary contract on a 2-stage pipeline. -/
def c4_stack_enc : T5Stack :=
  { is_decoder := false, gradient_checkpointing := false, training := false,
    embed_tokens := some id, dropout := id, final_layer_norm := id,
    block := [fun h _ _ _ _ _ _ _ _ _ _ =>
      [h, TVal.tensor ⟨[1], Dtype.float32, Device.cpu⟩]],
    config_num_layers := 1,
    get_extended_attention_mask := fun m _ => m, invert_attention_mask := id,
    get_head_mask := fun _ _ => [TVal.none_] }

/-- The matching one-block decoder stack. -/
def c4_stack_dec : T5Stack := { c4_stack_enc with is_decoder := true }

/-- A concrete `T5Model` over the fixture stacks. -/
def c4_model : T5ModelM := ⟨c4_stack_enc, c4_stack_dec, false, false, 1, 1⟩

/-- A concrete `T5ForConditionalGeneration` over the fixture stacks. -/
def c4_condgen : T5ForCondGen :=
  ⟨c4_stack_enc, c4_stack_dec, false, false, false, 1, 1, id, id,
    fun _ _ => TVal.none_⟩

/-- Arguments for the last encoder stage (stage 0 of 2,
`decoder_starting_stage = 1`). -/
def c4_args_enc : ModelArgs :=
  { input_ids := .tensor ⟨[2, 3], Dtype.int64, Device.cpu⟩,
    stage_manager := ⟨0, 2, false⟩, stage_index := [0, 1],
    decoder_starting_stage := 1 }

/-- Arguments for a decoder stage (stage 1 of 2) with `encoder_outputs`
left absent. -/
def c4_args_dec : ModelArgs :=
  { stage_manager := ⟨1, 2, true⟩, decoder_starting_stage := 1 }

theorem migrateIf_device (t : Tensor) : (migrateIf t).device = Device.meta := by
  unfold migrateIf
  split
  · next h =>
      simpa [Tensor.is_meta] using h
  · rfl

theorem migrateIf_dtype (t : Tensor) : (migrateIf t).dtype = t.dtype := by
  unfold migrateIf
  split <;> rfl

theorem migrateIf_shape (t : Tensor) : (migrateIf t).shape = t.shape := by
  unfold migrateIf
  split <;> rfl

theorem migrateIf_idem (t : Tensor) : migrateIf (migrateIf t) = migrateIf t := by
  unfold migrateIf
  split <;> simp [Tensor.is_meta, Tensor.toMeta]

theorem new_tensor_meta (elem : TensorLike) (fd : Option Device) :
    (MetaTensor.new elem fd)._tensor.device = Device.meta := by
  cases elem <;> simp [MetaTensor.new, migrateIf_device]

theorem unwrapAccum_noTensors (t : PyTree) :
    ∀ fd, noTensors t = true → unwrapAccum fd t = (fd, t) := by
  induction t with
  | tensorV t => intro fd h; simp [noTensors] at h
  | metaV m => intro fd h; simp [noTensors] at h
  | devV d => intro fd h; rfl
  | intV n => intro fd h; rfl
  | nil => intro fd h; rfl
  | cons a b iha ihb =>
      intro fd h
      unfold noTensors at h
      rw [Bool.and_eq_true] at h
      unfold unwrapAccum
      simp only [iha fd h.1, ihb fd h.2]

theorem allProxiesAt_mapTree (d : Device) (t : PyTree) :
    allProxiesAt d (mapTree (wrapLeaf (some d)) t) = true := by
  induction t with
  | tensorV t => simp [mapTree, wrapLeaf, allProxiesAt, MetaTensor.new]
  | metaV m => simp [mapTree, wrapLeaf, allProxiesAt, MetaTensor.new]
  | devV d' => rfl
  | intV n => rfl
  | nil => rfl
  | cons a b iha ihb => simp [mapTree, allProxiesAt, iha, ihb]

theorem allProxiesMeta_mapTree (fd : Option Device) (t : PyTree) :
    allProxiesMeta (mapTree (wrapLeaf fd) t) = true := by
  induction t with
  | tensorV t => simp [mapTree, wrapLeaf, allProxiesMeta, new_tensor_meta]
  | metaV m => simp [mapTree, wrapLeaf, allProxiesMeta, new_tensor_meta]
  | devV d' => rfl
  | intV n => rfl
  | nil => rfl
  | cons a b iha ihb => simp [mapTree, allProxiesMeta, iha, ihb]

theorem okOrP_bind {α β : Type} {P : PyError → Bool} {x : Except PyError α}
    {f : α → Except PyError β} (hx : okOrP P x = true)
    (hf : ∀ v, okOrP P (f v) = true) : okOrP P (x >>= f) = true := by
  cases x with
  | ok v => exact hf v
  | error e => exact hx

theorem okOrP_mono {α : Type} {P Q : PyError → Bool} {x : Except PyError α}
    (h : ∀ e, P e = true → Q e = true) (hx : okOrP P x = true) :
    okOrP Q x = true := by
  cases x with
  | ok v => rfl
  | error e => exact h e hx

theorem benign2_noUL (e : PyError) (h : benign2 e = true) : noULb e = true := by
  cases e <;> simp_all [benign2, noULb]

theorem benign2_noExcl (e : PyError) (h : benign2 e = true) :
    (!isExclInputErr e) = true := by
  cases e <;> simp_all [benign2, isExclInputErr]

theorem pyGetL_ok {α : Type} (xs : List α) (i : Int) :
    okOrP benign2 (pyGetL xs i) = true := by
  unfold pyGetL
  dsimp only
  repeat' split
  all_goals rfl

theorem expectTensor_ok (v : TVal) : okOrP benign2 (expectTensor v) = true := by
  cases v <;> rfl

theorem expectTensor_err (v : TVal) (e : PyError)
    (h : expectTensor v = .error e) :
    e = .attributeError "object has no tensor attribute" := by
  cases v <;> simp_all [expectTensor]

theorem pyIndexV_ok (v : TVal) (i : Int) :
    okOrP benign2 (pyIndexV v i) = true := by
  unfold pyIndexV
  split
  · exact pyGetL_ok _ _
  · split
    · split
      · rfl
      · dsimp only
        repeat' split
        all_goals rfl
    · rfl

theorem maskSeqLen_ok (past : Option (List TVal)) (seq : Nat) :
    okOrP benign2 (maskSeqLen past seq) = true := by
  cases past with
  | none => rfl
  | some l =>
      unfold maskSeqLen
      apply okOrP_bind (pyGetL_ok _ _)
      intro kv0
      apply okOrP_bind (pyIndexV_ok _ _)
      intro kv00
      apply okOrP_bind (expectTensor_ok _)
      intro t
      apply okOrP_bind (pyGetL_ok _ _)
      intro s2
      rfl

theorem encAttnMask_ok (indec : Bool) (eam ehs : TVal) (b : Nat)
    (dev : Device) : okOrP benign2 (encAttnMask indec eam ehs b dev) = true := by
  unfold encAttnMask
  split
  · cases hE : expectTensor ehs with
    | error e =>
        dsimp only
        rw [expectTensor_err _ _ hE]
        rfl
    | ok t =>
        dsimp only
        have h := pyGetL_ok t.shape 1
        cases hG : pyGetL t.shape 1 with
        | error e => rw [hG] at h; exact h
        | ok n => rfl
  · rfl

theorem unpack3_ok (s : List Nat) : okOrP benign2 (unpack3 s) = true := by
  unfold unpack3
  split <;> rfl

theorem defaultEncMask_ok (eam iemb : TVal) (b s : Nat) :
    okOrP benign2 (defaultEncMask eam iemb b s) = true := by
  unfold defaultEncMask
  split
  · cases hE : expectTensor iemb with
    | error e =>
        dsimp only
        rw [expectTensor_err _ _ hE]
        rfl
    | ok t => rfl
  · rfl

theorem encExtMask_ok (self : T5Stack) (ehs eam iemb : TVal) :
    okOrP benign2 (encExtMask self ehs eam iemb) = true := by
  unfold encExtMask
  split
  · apply okOrP_bind (expectTensor_ok _)
    intro t
    apply okOrP_bind (unpack3_ok _)
    intro dims
    apply okOrP_bind (defaultEncMask_ok _ _ _ _)
    intro eam2
    rfl
  · rfl

theorem unpackHP_ok (lo : List TVal) : okOrP benign2 (unpackHP lo) = true := by
  unfold unpackHP
  split <;> rfl

theorem edpbStep_ok (indec : Bool) (ehs : TVal) (oa : Option Bool)
    (lo : List TVal) (old : TVal) :
    okOrP benign2 (edpbStep indec ehs oa lo old) = true := by
  unfold edpbStep
  split
  · exact pyGetL_ok _ _
  · rfl

theorem presentStep_ok (uc : Option Bool) (pr : Option (List TVal))
    (pkv : TVal) : okOrP benign2 (presentStep uc pr pkv) = true := by
  unfold presentStep
  repeat' split
  all_goals rfl

theorem runBlocks_ok (self : T5Stack) (pkv hm cam : List TVal)
    (eam ehs eeam : TVal) (indec : Bool) (uc oa : Option Bool) :
    ∀ (fuel : Nat) (i : Int) (st : LoopSt),
      okOrP benign2 (runBlocks self pkv hm cam eam ehs eeam indec uc oa
        fuel i st) = true := by
  intro fuel
  induction fuel with
  | zero => intro i st; rfl
  | succ n ih =>
      intro i st
      unfold runBlocks
      apply okOrP_bind (pyGetL_ok _ _)
      intro pkvi
      apply okOrP_bind (pyGetL_ok _ _)
      intro lm
      apply okOrP_bind (pyGetL_ok _ _)
      intro lhm
      apply okOrP_bind (pyGetL_ok _ _)
      intro calhm
      apply okOrP_bind (expectTensor_ok _)
      intro ht
      apply okOrP_bind (unpackHP_ok _)
      intro hp
      apply okOrP_bind (pyGetL_ok _ _)
      intro pb
      apply okOrP_bind (edpbStep_ok _ _ _ _ _)
      intro edpb
      apply okOrP_bind (presentStep_ok _ _ _)
      intro pr
      exact ih _ _

theorem t5_stack_rest_ok (self : T5Stack) (a : StackArgs) (uc : Option Bool)
    (indec atlast : Bool) (ishape : List Nat) (bsz sql : Nat) (dev : Device)
    (iemb hid : TVal) :
    okOrP benign2
      (t5_stack_rest self a uc indec atlast ishape bsz sql dev iemb hid) =
      true := by
  unfold t5_stack_rest
  apply okOrP_bind (maskSeqLen_ok _ _)
  intro msl
  apply okOrP_bind (encAttnMask_ok _ _ _ _ _)
  intro eam
  apply okOrP_bind (encExtMask_ok _ _ _ _)
  intro eeam
  apply okOrP_bind (pyGetL_ok _ _)
  intro start_idx
  apply okOrP_bind (pyGetL_ok _ _)
  intro end_idx
  apply okOrP_bind (runBlocks_ok _ _ _ _ _ _ _ _ _ _ _ _ _)
  intro st
  split
  · split <;> rfl
  · rfl

theorem embedStep_ok (self : T5Stack) (i e : TVal) :
    okOrP benign2 (embedStep self i e) = true := by
  unfold embedStep
  split
  · split <;> rfl
  · rfl

theorem unpack2_ok (s : List Nat) : okOrP benign2 (unpack2 s) = true := by
  unfold unpack2
  split <;> rfl

theorem firstStageInputs_noUL (d : Bool) (i e : TVal) :
    okOrP noULb (firstStageInputs d i e) = true := by
  unfold firstStageInputs
  split
  · rfl
  · split
    · cases hET : expectTensor i with
      | error e' =>
          have := expectTensor_err i e' hET
          simp [this, okOrP, noULb]
      | ok t =>
          dsimp only
          split <;> rfl
    · split
      · cases hET : expectTensor e with
        | error e' =>
            have := expectTensor_err e e' hET
            simp [this, okOrP, noULb]
        | ok t => rfl
      · rfl

theorem firstStageInputs_one_ok (d : Bool) (i e : TVal)
    (h : (i = TVal.none_ ∧ e ≠ TVal.none_) ∨ (i ≠ TVal.none_ ∧ e = TVal.none_)) :
    okOrP (fun er => !isExclInputErr er) (firstStageInputs d i e) = true := by
  unfold firstStageInputs
  rcases h with ⟨hi, he⟩ | ⟨hi, he⟩
  · rw [if_neg, if_neg, if_pos]
    · cases hET : expectTensor e with
      | error e' =>
          have := expectTensor_err e e' hET
          simp [this, okOrP, isExclInputErr]
      | ok t => rfl
    · simp [he]
    · simp [hi]
    · simp [hi]
  · rw [if_neg, if_pos]
    · cases hET : expectTensor i with
      | error e' =>
          have := expectTensor_err i e' hET
          simp [this, okOrP, isExclInputErr]
      | ok t =>
          dsimp only
          split <;> rfl
    · simp [hi]
    · simp [he]

theorem firstStageInputs_both (d : Bool) (i e : TVal)
    (hi : i ≠ TVal.none_) (he : e ≠ TVal.none_) :
    firstStageInputs d i e = .error (.bothInputs (errPfx d)) := by
  unfold firstStageInputs
  rw [if_pos]
  simp [hi, he]

theorem firstStageInputs_neither (d : Bool) :
    firstStageInputs d TVal.none_ TVal.none_ =
      .error (.neitherInputs (errPfx d)) := rfl

theorem suppress_stage_manager (a : StackArgs) :
    (suppressPipelineFlags a).stage_manager = a.stage_manager := rfl

theorem suppress_input_ids (a : StackArgs) :
    (suppressPipelineFlags a).input_ids = a.input_ids := rfl

theorem suppress_inputs_embeds (a : StackArgs) :
    (suppressPipelineFlags a).inputs_embeds = a.inputs_embeds := rfl

theorem suppress_uc_ne_true (a : StackArgs) :
    ((suppressPipelineFlags a).use_cache == some true) = false := by
  show ((if truthyB a.use_cache then some false else a.use_cache) ==
    some true) = false
  cases a.use_cache with
  | none => rfl
  | some b => cases b <;> rfl

theorem t5_stack_forward_eq_core (self : T5Stack) (a : StackArgs) :
    t5_stack_forward self a = t5_stack_core self (suppressPipelineFlags a) := by
  unfold t5_stack_forward
  simp [suppress_uc_ne_true]

theorem t5_stack_core_noUL (self : T5Stack) (a : StackArgs) :
    okOrP noULb (t5_stack_core self a) = true := by
  unfold t5_stack_core
  cases hSM : a.stage_manager with
  | none => rfl
  | some sm =>
      dsimp only
      split
      · rfl
      · split
        · cases hF : firstStageInputs self.is_decoder a.input_ids
              a.inputs_embeds with
          | error e =>
              have h := firstStageInputs_noUL self.is_decoder a.input_ids
                a.inputs_embeds
              rw [hF] at h
              exact h
          | ok v =>
              dsimp only
              cases hEm : embedStep self v.2.1 v.2.2 with
              | error e =>
                  have h := embedStep_ok self v.2.1 v.2.2
                  rw [hEm] at h
                  exact benign2_noUL e h
              | ok ie1 =>
                  dsimp only
                  cases hU : unpack2 v.1 with
                  | error e =>
                      have h := unpack2_ok v.1
                      rw [hU] at h
                      exact benign2_noUL e h
                  | ok bs =>
                      dsimp only
                      cases hT : expectTensor ie1 with
                      | error e => dsimp only; rw [expectTensor_err _ _ hT]; rfl
                      | ok et =>
                          exact okOrP_mono benign2_noUL
                            (t5_stack_rest_ok _ _ _ _ _ _ _ _ _ _ _)
        · split
          · rfl
          · cases hT : expectTensor a.hidden_states with
            | error e => rw [expectTensor_err _ _ hT]; rfl
            | ok ht =>
                dsimp only
                cases hG0 : pyGetL ht.shape.dropLast 0 with
                | error e =>
                    have h := pyGetL_ok ht.shape.dropLast 0
                    rw [hG0] at h
                    exact benign2_noUL e h
                | ok b0 =>
                    dsimp only
                    cases hG1 : pyGetL ht.shape.dropLast 1 with
                    | error e =>
                        have h := pyGetL_ok ht.shape.dropLast 1
                        rw [hG1] at h
                        exact benign2_noUL e h
                    | ok s1 =>
                        exact okOrP_mono benign2_noUL
                          (t5_stack_rest_ok _ _ _ _ _ _ _ _ _ _ _)

theorem t5_stack_core_noExcl (self : T5Stack) (a : StackArgs)
    (h : (a.input_ids = TVal.none_ ∧ a.inputs_embeds ≠ TVal.none_) ∨
      (a.input_ids ≠ TVal.none_ ∧ a.inputs_embeds = TVal.none_)) :
    okOrP (fun e => !isExclInputErr e) (t5_stack_core self a) = true := by
  unfold t5_stack_core
  cases hSM : a.stage_manager with
  | none => rfl
  | some sm =>
      dsimp only
      split
      · rfl
      · split
        · cases hF : firstStageInputs self.is_decoder a.input_ids
              a.inputs_embeds with
          | error e =>
              have hv := firstStageInputs_one_ok self.is_decoder a.input_ids
                a.inputs_embeds h
              rw [hF] at hv
              exact hv
          | ok v =>
              dsimp only
              cases hEm : embedStep self v.2.1 v.2.2 with
              | error e =>
                  have hb := embedStep_ok self v.2.1 v.2.2
                  rw [hEm] at hb
                  exact benign2_noExcl e hb
              | ok ie1 =>
                  dsimp only
                  cases hU : unpack2 v.1 with
                  | error e =>
                      have hb := unpack2_ok v.1
                      rw [hU] at hb
                      exact benign2_noExcl e hb
                  | ok bs =>
                      dsimp only
                      cases hT : expectTensor ie1 with
                      | error e => dsimp only; rw [expectTensor_err _ _ hT]; rfl
                      | ok et =>
                          exact okOrP_mono benign2_noExcl
                            (t5_stack_rest_ok _ _ _ _ _ _ _ _ _ _ _)
        · split
          · rfl
          · cases hT : expectTensor a.hidden_states with
            | error e => rw [expectTensor_err _ _ hT]; rfl
            | ok ht =>
                dsimp only
                cases hG0 : pyGetL ht.shape.dropLast 0 with
                | error e =>
                    have hb := pyGetL_ok ht.shape.dropLast 0
                    rw [hG0] at hb
                    exact benign2_noExcl e hb
                | ok b0 =>
                    dsimp only
                    cases hG1 : pyGetL ht.shape.dropLast 1 with
                    | error e =>
                        have hb := pyGetL_ok ht.shape.dropLast 1
                        rw [hG1] at hb
                        exact benign2_noExcl e hb
                    | ok s1 =>
                        exact okOrP_mono benign2_noExcl
                          (t5_stack_rest_ok _ _ _ _ _ _ _ _ _ _ _)

theorem t5_stack_core_both (self : T5Stack) (a : StackArgs)
    (sm : StageManager) (hsm : a.stage_manager = some sm)
    (halign : self.is_decoder = decide (sm.stage ≥ a.decoder_starting_stage))
    (hfirst : sm.stage = 0 ∨ sm.stage = a.decoder_starting_stage)
    (hi : a.input_ids ≠ TVal.none_) (he : a.inputs_embeds ≠ TVal.none_) :
    t5_stack_core self a = .error (.bothInputs (errPfx self.is_decoder)) := by
  have hb : (sm.stage == 0 || sm.stage == a.decoder_starting_stage) = true := by
    rcases hfirst with h | h <;> simp [h]
  unfold t5_stack_core
  rw [hsm]
  dsimp only
  rw [show (self.is_decoder !=
      decide (sm.stage ≥ a.decoder_starting_stage)) = false by
    rw [halign]; exact bne_self_eq_false _]
  rw [if_neg (by simp)]
  rw [if_pos hb]
  rw [firstStageInputs_both self.is_decoder a.input_ids a.inputs_embeds hi he]

theorem t5_stack_core_neither (self : T5Stack) (a : StackArgs)
    (sm : StageManager) (hsm : a.stage_manager = some sm)
    (halign : self.is_decoder = decide (sm.stage ≥ a.decoder_starting_stage))
    (hfirst : sm.stage = 0 ∨ sm.stage = a.decoder_starting_stage)
    (hi : a.input_ids = TVal.none_) (he : a.inputs_embeds = TVal.none_) :
    t5_stack_core self a =
      .error (.neitherInputs (errPfx self.is_decoder)) := by
  have hb : (sm.stage == 0 || sm.stage == a.decoder_starting_stage) = true := by
    rcases hfirst with h | h <;> simp [h]
  unfold t5_stack_core
  rw [hsm]
  dsimp only
  rw [show (self.is_decoder !=
      decide (sm.stage ≥ a.decoder_starting_stage)) = false by
    rw [halign]; exact bne_self_eq_false _]
  rw [if_neg (by simp)]
  rw [if_pos hb]
  rw [hi, he, firstStageInputs_neither self.is_decoder]

theorem suppress_flip_uc (a : StackArgs) :
    suppressPipelineFlags { a with use_cache := some true } =
      suppressPipelineFlags { a with use_cache := some false } := by
  simp [suppressPipelineFlags, truthyB]

theorem suppress_flip_oa (a : StackArgs) :
    suppressPipelineFlags { a with output_attentions := some true } =
      suppressPipelineFlags { a with output_attentions := some false } := by
  simp [suppressPipelineFlags, truthyB]

/-- Claim C5: first-stage exclusivity — at the first stage of a sub-model
(stage 0 for the encoder, `decoder_starting_stage` for the decoder, with
the stack aligned to the stage), supplying both `input_ids` and
`inputs_embeds` or neither fails with the corresponding `ValueError`;
supplying exactly one never produces either exclusivity error. -/
theorem first_stage_exclusivity (self : T5Stack) (a : StackArgs)
    (sm : StageManager) (hsm : a.stage_manager = some sm)
    (halign : self.is_decoder = decide (sm.stage ≥ a.decoder_starting_stage))
    (hfirst : sm.stage = 0 ∨ sm.stage = a.decoder_starting_stage) :
    (a.input_ids ≠ TVal.none_ → a.inputs_embeds ≠ TVal.none_ →
      t5_stack_forward self a =
        .error (.bothInputs (errPfx self.is_decoder))) ∧
    (a.input_ids = TVal.none_ → a.inputs_embeds = TVal.none_ →
      t5_stack_forward self a =
        .error (.neitherInputs (errPfx self.is_decoder))) ∧
    (((a.input_ids = TVal.none_ ∧ a.inputs_embeds ≠ TVal.none_) ∨
        (a.input_ids ≠ TVal.none_ ∧ a.inputs_embeds = TVal.none_)) →
      okOrP (fun e => !isExclInputErr e) (t5_stack_forward self a) = true) := by
  refine ⟨?_, ?_, ?_⟩
  · intro hi he
    rw [t5_stack_forward_eq_core]
    exact t5_stack_core_both self _ sm hsm halign hfirst hi he
  · intro hi he
    rw [t5_stack_forward_eq_core]
    exact t5_stack_core_neither self _ sm hsm halign hfirst hi he
  · intro h
    rw [t5_stack_forward_eq_core]
    exact t5_stack_core_noExcl self _ h

theorem first_stage_exclusivity_witness :
    t5_stack_forward
      { is_decoder := false, gradient_checkpointing := false,
        training := false, embed_tokens := none, dropout := id,
        final_layer_norm := id, block := [], config_num_layers := 1,
        get_extended_attention_mask := fun m _ => m,
        invert_attention_mask := id, get_head_mask := fun _ _ => [] }
      { input_ids := .tensor ⟨[2, 3], Dtype.int64, Device.cpu⟩,
        inputs_embeds := .tensor ⟨[2, 3, 4], Dtype.float32, Device.cpu⟩,
        stage_manager := some ⟨0, 2, false⟩,
        decoder_starting_stage := 1 } =
      .error (.bothInputs (errPfx false)) :=
  (first_stage_exclusivity _ _ ⟨0, 2, false⟩ rfl (by decide)
    (Or.inl rfl)).1 (by decide) (by decide)

/-- Claim C6: cache/attention suppression equivalence — a pipeline-mode
call of the staged forward with `use_cache=True` (resp.
`output_attentions=True`) returns exactly the same result as the identical
call with the flag at its default off value; the flag is downgraded with a
one-time advisory, never an error. -/
theorem pipeline_flag_suppression_equiv (self : T5Stack) (a : StackArgs) :
    (t5_stack_forward self { a with use_cache := some true } =
      t5_stack_forward self { a with use_cache := some false }) ∧
    (t5_stack_forward self { a with output_attentions := some true } =
      t5_stack_forward self { a with output_attentions := some false }) := by
  constructor
  · rw [t5_stack_forward_eq_core, t5_stack_forward_eq_core, suppress_flip_uc]
  · rw [t5_stack_forward_eq_core, t5_stack_forward_eq_core, suppress_flip_oa]

/-- Claim C9: the `use_cache is True` branch of `t5_stack_forward` (whose
body reads the not-yet-assigned local `in_decoder`) is unreachable: any
truthy `use_cache` has been forced to `False` before the test, so the
forward never raises the corresponding `UnboundLocalError` on any input. -/
theorem use_cache_branch_unreachable (self : T5Stack) (a : StackArgs) :
    ((suppressPipelineFlags a).use_cache == some true) = false ∧
    okOrP noULb (t5_stack_forward self a) = true := by
  refine ⟨suppress_uc_ne_true a, ?_⟩
  rw [t5_stack_forward_eq_core]
  exact t5_stack_core_noUL self _

/-- Claim C4: stage-boundary contract — at stage
`decoder_starting_stage - 1` (the last encoder stage) both model-level
forwards return the `{'encoder_outputs': ...}` mapping whenever they
return at all; at any decoder stage (`stage ≥ decoder_starting_stage`)
with `encoder_outputs` absent they fail with the corresponding
`ValueError`. -/
theorem stage_boundary_contract (m : T5ModelM) (g : T5ForCondGen)
    (a b : ModelArgs) (labels : TVal) :
    ((a.stage_manager.stage = a.decoder_starting_stage - 1) →
      (∀ out, t5_model_forward m a = .ok out →
        ∃ e, out = .encDict e) ∧
      (∀ out, t5_for_conditional_generation_forward g a labels = .ok out →
        ∃ e, out = .encDict e)) ∧
    ((b.stage_manager.stage ≥ b.decoder_starting_stage) →
      b.encoder_outputs = none →
      t5_model_forward m b = .error .missingEncoderOutputs ∧
      t5_for_conditional_generation_forward g b labels =
        .error .missingEncoderOutputs) := by
  constructor
  · intro h
    have hindec :
        decide (a.stage_manager.stage ≥ a.decoder_starting_stage) = false := by
      simp only [decide_eq_false_iff_not]
      omega
    have hbeq :
        (a.stage_manager.stage == a.decoder_starting_stage - 1) = true := by
      simp [h]
    constructor
    · intro out hok
      unfold t5_model_forward at hok
      rw [hindec] at hok
      rw [if_pos (by decide : ((!false : Bool) = true))] at hok
      cases hst : t5_stack_forward m.encoder
          (encoderCallArgs a
            (if truthyB a.output_attentions then some false
              else a.output_attentions)
            (if truthyB a.output_hidden_states then some false
              else a.output_hidden_states)
            (match a.return_dict with
              | some b => some b
              | none => some m.config_use_return_dict)) with
      | error e => rw [hst] at hok; exact absurd hok (by simp)
      | ok enc =>
          rw [hst] at hok
          rw [hbeq] at hok
          simp at hok
          exact ⟨enc, hok.symm⟩
    · intro out hok
      unfold t5_for_conditional_generation_forward at hok
      rw [hindec] at hok
      rw [if_pos (by decide : ((!false : Bool) = true))] at hok
      cases hst : t5_stack_forward g.encoder
          (encoderCallArgs a
            (if truthyB a.output_attentions then some false
              else a.output_attentions)
            (if truthyB a.output_hidden_states then some false
              else a.output_hidden_states)
            (match a.return_dict with
              | some b => some b
              | none => some g.config_use_return_dict)) with
      | error e => rw [hst] at hok; exact absurd hok (by simp)
      | ok enc =>
          rw [hst] at hok
          rw [hbeq] at hok
          simp at hok
          exact ⟨enc, hok.symm⟩
  · intro h1 h2
    have hindec :
        decide (b.stage_manager.stage ≥ b.decoder_starting_stage) = true := by
      simpa using h1
    constructor
    · unfold t5_model_forward
      rw [hindec]
      simp [h2]
    · unfold t5_for_conditional_generation_forward
      rw [hindec]
      simp [h2]

theorem stage_boundary_contract_witness :
    (∃ e, ModelFwdOut.encDict (StackOutput.tupleOut
        [TVal.tensor ⟨[2, 3], Dtype.int64, Device.cpu⟩]) =
      ModelFwdOut.encDict e) ∧
    t5_model_forward c4_model c4_args_dec = .error .missingEncoderOutputs ∧
    t5_for_conditional_generation_forward c4_condgen c4_args_dec TVal.none_ =
      .error .missingEncoderOutputs := by
  have h := stage_boundary_contract c4_model c4_condgen c4_args_enc
    c4_args_dec TVal.none_
  exact ⟨(h.1 (by decide)).1 _ rfl, (h.2 (by decide) rfl).1,
    (h.2 (by decide) rfl).2⟩

/-- Claim C2: re-wrapping round-trip — wrapping a wrapped value with an
explicit location B reports B; wrapping it again without a location
reports the inner proxy's stored location A. -/
theorem construct_roundtrip (x : Tensor) (A B : Device) (hAB : A ≠ B) :
    (MetaTensor.new (.wrapped (MetaTensor.new (.plain x) (some A)))
      (some B)).device = B ∧
    (MetaTensor.new (.wrapped (MetaTensor.new (.plain x) (some A)))
      none).device = A := by
  constructor <;> rfl

theorem construct_roundtrip_witness :
    (Device.cuda 0 ≠ Device.cuda 1) ∧
    (MetaTensor.new
      (.wrapped (MetaTensor.new (.plain ⟨[1], Dtype.float32, Device.cpu⟩)
        (some (Device.cuda 0)))) (some (Device.cuda 1))).device =
      Device.cuda 1 ∧
    (MetaTensor.new
      (.wrapped (MetaTensor.new (.plain ⟨[1], Dtype.float32, Device.cpu⟩)
        (some (Device.cuda 0)))) none).device = Device.cuda 0 :=
  ⟨by decide,
   construct_roundtrip ⟨[1], Dtype.float32, Device.cpu⟩ (Device.cuda 0)
     (Device.cuda 1) (by decide)⟩

/-- Claim C3: storage invariant — a constructed proxy always holds its
`_tensor` on the meta device, and every proxy in the rewrapped result of a
dispatch does too. -/
theorem virtual_storage_invariant :
    (∀ (elem : TensorLike) (fd : Option Device),
        (MetaTensor.new elem fd)._tensor.device = Device.meta) ∧
    (∀ (func : PyTree → Kwargs → PyTree) (args : PyTree)
        (kw : Option Kwargs) (r : PyTree),
        torchDispatch func args kw = .ok r → allProxiesMeta r = true) := by
  refine ⟨new_tensor_meta, ?_⟩
  intro func args kw r h
  cases kw with
  | none => simp [torchDispatch] at h
  | some kw =>
      simp only [torchDispatch] at h
      rw [Except.ok.injEq] at h
      rw [← h]
      exact allProxiesMeta_mapTree _ _

theorem virtual_storage_invariant_witness :
    (MetaTensor.new (.plain ⟨[2], Dtype.float32, Device.cpu⟩)
      none)._tensor.device = Device.meta ∧
    allProxiesMeta
      (PyTree.cons (.metaV ⟨⟨[2], Dtype.float32, Device.meta⟩, Device.cpu⟩)
        .nil) = true :=
  ⟨virtual_storage_invariant.1 (.plain ⟨[2], Dtype.float32, Device.cpu⟩) none,
   virtual_storage_invariant.2 (fun a _ => a)
     (PyTree.cons (.metaV ⟨⟨[2], Dtype.float32, Device.meta⟩, Device.cpu⟩)
       .nil)
     (some { device := none, rest := .nil }) _ rfl⟩

/-- Claim C7: location propagation — dispatching an operation whose only
tensor argument is a single proxy rewraps every tensor leaf of the result
with the input proxy's reported location. -/
theorem single_input_location_propagation
    (func : PyTree → Kwargs → PyTree) (m : MetaTensor) :
    torchDispatch func (.cons (.metaV m) .nil)
        (some { device := none, rest := .nil }) =
      .ok (mapTree (wrapLeaf (some m.device))
        (func (.cons (.tensorV m._tensor) .nil)
          { device := none, rest := .nil })) ∧
    allProxiesAt m.device (mapTree (wrapLeaf (some m.device))
      (func (.cons (.tensorV m._tensor) .nil)
        { device := none, rest := .nil })) = true := by
  exact ⟨rfl, allProxiesAt_mapTree m.device _⟩

theorem superToDtype_eq (self : MetaTensor) (d : Dtype) :
    superToDtype self d =
      { _tensor := migrateIf (migrateIf { self._tensor with dtype := d }),
        device := self.device } := rfl

/-- Claim C8: the conversion entry point with a location target performs
the (optional) dtype conversion through the normal dispatched path, then
deep-copies and rewraps reporting the target location. -/
theorem to_device_target (self : MetaTensor) (dev : Device)
    (dt : Option Dtype) :
    (MetaTensor.toDevice self dev dt).device = dev ∧
    (MetaTensor.toDevice self dev dt)._tensor.dtype =
      (match dt with | none => self._tensor.dtype | some d => d) ∧
    (MetaTensor.toDevice self dev dt)._tensor.shape = self._tensor.shape ∧
    MetaTensor.toDevice self dev dt =
      MetaTensor.new (.wrapped (deepcopy
        (match dt with | none => self | some d => superToDtype self d)))
        (some dev) := by
  refine ⟨?_, ?_, ?_, ?_⟩
  · cases dt <;> rfl
  · cases dt with
    | none =>
        simp [MetaTensor.toDevice, MetaTensor.new, deepcopy, migrateIf_dtype]
    | some d =>
        simp [MetaTensor.toDevice, MetaTensor.new, deepcopy, superToDtype_eq,
          migrateIf_dtype]
  · cases dt with
    | none =>
        simp [MetaTensor.toDevice, MetaTensor.new, deepcopy, migrateIf_shape]
    | some d =>
        simp [MetaTensor.toDevice, MetaTensor.new, deepcopy, superToDtype_eq,
          migrateIf_shape]
  · cases dt <;> rfl

/-- Claim C10: dispatch with an omitted (`None`) keyword-argument map fails
with a `TypeError` when testing `'device' in kwargs`, instead of treating
the absent map as empty. -/
theorem dispatch_none_kwargs_type_error
    (func : PyTree → Kwargs → PyTree) (args : PyTree) :
    torchDispatch func args none =
      .error "TypeError: argument of type NoneType is not iterable" := rfl

/-- Counterexample to claim C1 as stated: with a proxy argument reporting
`cuda 0` and a `device` keyword of `cuda 1`, the rewrapped result reports
`cuda 0` — the kwarg, captured before the argument-tree scan, is
overwritten by the proxy visited during the scan, so it does not determine
the result's reported location. -/
theorem dispatch_kwarg_location_cex :
    torchDispatch (fun a _ => a)
        (PyTree.cons
          (.metaV ⟨⟨[2], Dtype.float32, Device.meta⟩, Device.cuda 0⟩) .nil)
        (some { device := some (Device.cuda 1), rest := .nil }) =
      .ok (PyTree.cons
        (.metaV ⟨⟨[2], Dtype.float32, Device.meta⟩, Device.cuda 0⟩) .nil) ∧
    Device.cuda 0 ≠ Device.cuda 1 :=
  ⟨rfl, by decide⟩

/-- Claim C1 (amended): the `device` keyword is captured and replaced by
the meta device before the argument-tree scan, so it determines the
result's reported location only when the argument trees contain no proxy
or plain-tensor leaf; tensor leaves of the result are rewrapped at the
captured location and non-tensor leaves pass through unchanged. -/
theorem dispatch_kwarg_location_amended (func : PyTree → Kwargs → PyTree)
    (args : PyTree) (kw : Kwargs) (d : Device)
    (hdev : kw.device = some d) (hargs : noTensors args = true)
    (hrest : noTensors kw.rest = true) :
    torchDispatch func args (some kw) =
      .ok (mapTree (wrapLeaf (some d))
        (func args { device := some Device.meta, rest := kw.rest })) ∧
    allProxiesAt d (mapTree (wrapLeaf (some d))
      (func args { device := some Device.meta, rest := kw.rest })) = true ∧
    (∀ n : Int, wrapLeaf (some d) (.intV n) = .intV n) ∧
    (∀ dd : Device, wrapLeaf (some d) (.devV dd) = .devV dd) := by
  refine ⟨?_, allProxiesAt_mapTree d _, fun n => rfl, fun dd => rfl⟩
  simp only [torchDispatch, hdev]
  rw [unwrapAccum_noTensors args (some d) hargs,
    unwrapAccum_noTensors kw.rest (some d) hrest]

theorem dispatch_kwarg_location_amended_witness :
    torchDispatch (fun _ _ => PyTree.tensorV ⟨[1], Dtype.float32, Device.cpu⟩)
        PyTree.nil (some { device := some (Device.cuda 3), rest := .nil }) =
      .ok (.metaV ⟨⟨[1], Dtype.float32, Device.meta⟩, Device.cuda 3⟩) :=
  ((dispatch_kwarg_location_amended
      (fun _ _ => PyTree.tensorV ⟨[1], Dtype.float32, Device.cpu⟩)
      PyTree.nil { device := some (Device.cuda 3), rest := .nil }
      (Device.cuda 3) rfl rfl rfl).1).trans rfl

end ColossalSpec
